import Mathlib

/-!
Shallow embedding of `desmod/tracer.py`: scope-filtered tracing backends
(`Tracer`, `LogTracer`, `VCDTracer`) and the `TraceManager` probe dispatch.

Modelling conventions:
* Compiled regular expressions (`re.compile`) are regex ASTs; `re.match`
  (anchored at position 0, free at the end) is decided with Brzozowski
  derivatives over the list of characters of the scope.
* Fallible Python code returns `Except PyErr`; an attribute read on an
  attribute that `open()` would have set is an `attrError` when the tracer
  never opened (exactly the states Python would raise `AttributeError` in).
* Output side effects (prints, closes) are reified as `Event` lists;
  the external collaborators (`VCDWriter`, `probe.attach`, files) are kept at
  their interface boundary as data (`ProbeActivation`, `AttachCall`).
* Simulated time (`env.now`) is an integer; the `:.3f` float rendering of the
  timestamp inside a format template is abstracted to `toString`.
-/

namespace Desmod

/-! ### Regular expressions: model of Python compiled patterns.

Python `re.match` anchors at the start of the string and may stop before its
end.  `fullmatch r cs` decides whether `r` matches all of `cs` (Brzozowski
derivatives); `reMatch r s` decides whether `r` matches some prefix of `s`,
which is `re.match` semantics.  `.` matches any character except a newline,
as in Python. -/

inductive Regex where
  | empty
  | eps
  | char (c : Char)
  | dot
  | alt (a b : Regex)
  | concat (a b : Regex)
  | star (a : Regex)
  deriving DecidableEq

def nullable : Regex → Bool
  | .empty => false
  | .eps => true
  | .char _ => false
  | .dot => false
  | .alt a b => nullable a || nullable b
  | .concat a b => nullable a && nullable b
  | .star _ => true

def deriv : Regex → Char → Regex
  | .empty, _ => .empty
  | .eps, _ => .empty
  | .char c, x => if x = c then .eps else .empty
  | .dot, x => if x = '\n' then .empty else .eps
  | .alt a b, x => .alt (deriv a x) (deriv b x)
  | .concat a b, x =>
      if nullable a then .alt (.concat (deriv a x) b) (deriv b x)
      else .concat (deriv a x) b
  | .star a, x => .concat (deriv a x) (.star a)

def fullmatch (r : Regex) (cs : List Char) : Bool :=
  nullable (cs.foldl deriv r)

/-- `r.match(s)` of a compiled pattern: `r` fully matches `s.take k` for some
`k ≤ s.length`. -/
def reMatch (r : Regex) (s : String) : Bool :=
  (List.range (s.data.length + 1)).any fun k => fullmatch r (s.data.take k)

/-- A pattern string made only of ordinary characters and `.` (which is the
any-character metacharacter), e.g. the pattern `sim.queue`. -/
def Regex.ofChars : List Char → Regex
  | [] => .eps
  | c :: cs => .concat (if c = '.' then .dot else .char c) (Regex.ofChars cs)

/-- The default include pattern `.*`. -/
def matchAll : Regex := .star .dot

/-! ### Scope strings -/

/-- `scope.rsplit('.', 1)` when it yields two pieces: split at the last dot.
`none` when the scope has no dot (Python returns a one-element list there and
the two-name unpacking raises `ValueError`). -/
def rsplit1 : List Char → Option (List Char × List Char)
  | [] => none
  | c :: rest =>
    match rsplit1 rest with
    | some (a, b) => some (c :: a, b)
    | none => if c == '.' then some ([], rest) else none

def rsplitStr (s : String) : Option (String × String) :=
  (rsplit1 s.data).map fun p => (String.mk p.1, String.mk p.2)

def hasDotL : List Char → Bool
  | [] => false
  | c :: rest => (c == '.') || hasDotL rest

def hasDot (s : String) : Bool := hasDotL s.data

/-! ### Python values, probe targets, exceptions -/

/-- A Python value as far as this module inspects one: `int`, `float`
(the floating value itself is abstracted to a rational tag; the code never
computes with it) or `str` (the VCD sentinel `'z'`). -/
inductive PyVal where
  | int (n : Int)
  | float (x : Rat)
  | str (s : String)
  deriving DecidableEq

/-- `isinstance(v, float)`. -/
def PyVal.isFloat : PyVal → Bool
  | .float _ => true
  | _ => false

/-- The runtime shapes `activate_probe` distinguishes: `simpy.Container`
(level-valued), `simpy.Resource` (users list, capacity), `simpy.Store`
(items list), or anything else. -/
inductive Target where
  | container (level : PyVal)
  | resource (users : Nat) (capacity : Option Nat)
  | store (items : Nat)
  | other
  deriving DecidableEq

inductive PyErr where
  | valueError (msg : String)
  | attrError (missing : String)
  | assertionError
  deriving DecidableEq

/-! ### Format templates.

A format string is a token list; `{level}`, `{ts}`, `{ts_unit}`, `{scope}`,
`{message}` are the five named placeholders.  `part_format` binds some of
them (two-stage formatting), `renderFinal` finishes with time and message. -/

inductive FmtTok where
  | lit (s : String)
  | level
  | ts
  | ts_unit
  | scope
  | message
  deriving DecidableEq

abbrev Fmt := List FmtTok

/-- `LogTracer.default_format`, the template
`{level} {ts:.3f} {ts_unit}: {scope}: {message}`. -/
def default_format : Fmt :=
  [.level, .lit " ", .ts, .lit " ", .ts_unit, .lit ": ", .scope, .lit ": ", .message]

/-- Modelled from the spec: `partial_format` from `desmod/util.py` (absent
from the sources) binds some named placeholders of a template and leaves the
rest free for a later `format` call (spec section 4.3, two-phase template). -/
def part_format (f : Fmt) (level ts_unit scope : String) : Fmt :=
  f.map fun t =>
    match t with
    | .level => .lit level
    | .ts_unit => .lit ts_unit
    | .scope => .lit scope
    | t => t

/-- The final `format(ts=..., message=...)` call on a template whose other
placeholders were already bound. -/
def renderFinal (f : Fmt) (now : Int) (message : String) : String :=
  String.join (f.map fun t =>
    match t with
    | .lit s => s
    | .ts => toString now
    | .message => message
    | _ => "")

/-- A single-stage `format` with all five placeholders bound (used by
`LogTracer.__exit__`). -/
def formatLine (f : Fmt) (level ts_unit scope : String) (now : Int) (message : String) : String :=
  renderFinal (part_format f level ts_unit scope) now message

/-- A per-probe value format string (the `value_fmt` hint): literal text and
the `{value}` placeholder. -/
inductive VTok where
  | lit (s : String)
  | value
  deriving DecidableEq

abbrev VFmt := List VTok

/-! ### Destinations, events, levels, hints -/

inductive FileDest where
  | stderr
  | file (name : String)
  deriving DecidableEq

/-- `sim.log.file`: a missing or empty (falsy) filename means standard error. -/
def destOf : Option String → FileDest
  | some f => if f = "" then .stderr else .file f
  | none => .stderr

inductive TracerName where
  | log
  | vcd
  deriving DecidableEq

/-- Observable side effects of the tracing layer: one `print` call to a
destination (first argument rendered, extra positional arguments as given),
or one resource release of a tracer. -/
inductive Event where
  | wrote (dest : FileDest) (text : String) (extra : List String)
  | closed (t : TracerName)
  deriving DecidableEq

inductive LogLevel where
  | ERROR
  | WARNING
  | INFO
  | PROBE
  | DEBUG
  deriving DecidableEq

structure LogHints where
  level : Option LogLevel := none
  value_fmt : Option VFmt := none
  deriving DecidableEq

structure VcdHints where
  var_type : Option String := none
  size : Option Nat := none
  init : Option PyVal := none
  ident : Option String := none
  deriving DecidableEq

/-- The hint bag passed to `auto_probe`: a dict whose relevant keys are the
two tracer names. -/
structure Hints where
  log : Option LogHints := none
  vcd : Option VcdHints := none
  deriving DecidableEq

/-- `tracer.name in hints`. -/
def Hints.hasKey (h : Hints) : TracerName → Bool
  | .log => h.log.isSome
  | .vcd => h.vcd.isSome

/-! ### Tracer base class -/

/-- Configuration read by `Tracer.__init__`: `sim.<name>.enable`
(default `False`), `sim.<name>.include_pat` (default `['.*']`),
`sim.<name>.exclude_pat` (default `[]`). -/
structure TracerConfig where
  enable : Bool := false
  include_pat : List Regex := [matchAll]
  exclude_pat : List Regex := []

/-- The state `Tracer.__init__` leaves behind: `opened` says whether `open()`
ran; the compiled pattern lists exist only when the tracer is enabled. -/
structure Tracer where
  enabled : Bool
  opened : Bool
  include_re : Option (List Regex)
  exclude_re : Option (List Regex)

def Tracer.init (cfg : TracerConfig) : Tracer :=
  { enabled := cfg.enable
    opened := cfg.enable
    include_re := if cfg.enable then some cfg.include_pat else none
    exclude_re := if cfg.enable then some cfg.exclude_pat else none }

/-- `Tracer.is_scope_enabled`.  The Python `and` short-circuits, so the
pattern attributes are only read when the tracer is enabled — a state in
which `__init__` always compiled them; `getD []` encodes that invariant. -/
def Tracer.is_scope_enabled (t : Tracer) (scope : String) : Bool :=
  t.enabled && ((t.include_re.getD []).any fun r => reMatch r scope)
    && !((t.exclude_re.getD []).any fun r => reMatch r scope)

/-! ### VCD tracer -/

/-- Which registration method of the VCD writer gets selected
(`register_int` / `register_real` / `register_event`). -/
inductive RegMeth where
  | int
  | real
  | event
  deriving DecidableEq

/-- The signal registration handed to the external VCD writer: the
`(parent scope, leaf name)` key, the selected registration method and the
keyword arguments passed through. -/
structure ProbeActivation where
  parentScope : String
  name : String
  meth : RegMeth
  size : Option Nat
  init : Option PyVal
  ident : Option String
  deriving DecidableEq

/-- A probe callback as data: the log backend's closure captures the bound
template, per-probe value format and destination; the signal backend's
closure captures its registered variable. -/
inductive Callback where
  | logCb (fmt : Fmt) (value_fmt : VFmt) (dest : FileDest)
  | vcdCb (act : ProbeActivation)
  deriving DecidableEq

structure VcdConfig where
  enable : Bool := false
  include_pat : List Regex := [matchAll]
  exclude_pat : List Regex := []

structure VCDTracer where
  base : Tracer

def VCDTracer.init (cfg : VcdConfig) : VCDTracer :=
  ⟨Tracer.init ⟨cfg.enable, cfg.include_pat, cfg.exclude_pat⟩⟩

/-- `VCDTracer.activate_probe`.  Mirrors the source line by line:
`assert self.enabled`; var_type from the `vcd` hint entry else inferred from
the target shape else `ValueError`; the registration method from var_type —
the fallback arm reads `self.vcd_register_var`, an attribute that does not
exist, so Python raises `AttributeError` there; `init` from the hint else
from the target (a resource with an empty users list yields `'z'`); finally
`scope.rsplit('.', 1)` must produce two pieces. -/
def VCDTracer.activate_probe (t : VCDTracer) (scope : String) (target : Target)
    (hints : Hints) : Except PyErr ProbeActivation :=
  if !t.base.enabled then .error .assertionError
  else
    let vcd_hints := hints.vcd.getD {}
    let vtRes : Except PyErr String :=
      match vcd_hints.var_type with
      | some vt => .ok vt
      | none =>
        match target with
        | .container lvl => .ok (if lvl.isFloat then "real" else "integer")
        | .resource _ _ => .ok "integer"
        | .store _ => .ok "integer"
        | .other => .error (.valueError ("Could not infer VCD var_type for " ++ scope))
    match vtRes with
    | .error e => .error e
    | .ok var_type =>
      let methRes : Except PyErr RegMeth :=
        if var_type = "integer" then .ok .int
        else if var_type = "real" then .ok .real
        else if var_type = "event" then .ok .event
        else .error (.attrError "vcd_register_var")
      match methRes with
      | .error e => .error e
      | .ok meth =>
        let initArg : Option PyVal :=
          match vcd_hints.init with
          | some v => some v
          | none =>
            match target with
            | .container lvl => some lvl
            | .resource users _ => some (if users ≠ 0 then .int (Int.ofNat users) else .str "z")
            | .store items => some (.int (Int.ofNat items))
            | .other => none
        match rsplitStr scope with
        | none => .error (.valueError "not enough values to unpack (expected 2, got 1)")
        | some pn =>
          .ok { parentScope := pn.1, name := pn.2, meth := meth,
                size := vcd_hints.size, init := initArg, ident := vcd_hints.ident }

/-- `Tracer.__exit__` (not overridden by `VCDTracer`): close. -/
def VCDTracer.exitStep (_t : VCDTracer) : List Event := [.closed .vcd]

/-! ### Log tracer -/

/-- Configuration read by `LogTracer.__init__` / `open`. -/
structure LogConfig where
  enable : Bool := false
  include_pat : List Regex := [matchAll]
  exclude_pat : List Regex := []
  file : Option String := none
  level : LogLevel := .INFO
  format : Fmt := default_format

/-- The `LogTracer.levels` class attribute. -/
def LogTracer.levels : LogLevel → Nat
  | .ERROR => 1
  | .WARNING => 2
  | .INFO => 3
  | .PROBE => 4
  | .DEBUG => 5

def levelName : LogLevel → String
  | .ERROR => "ERROR"
  | .WARNING => "WARNING"
  | .INFO => "INFO"
  | .PROBE => "PROBE"
  | .DEBUG => "DEBUG"

/-- Time-unit rendering in `LogTracer.open`: the unit as-is when the scale
factor is 1, else `(<factor><unit>)`. -/
def mkTsUnit (ts : Nat × String) : String :=
  if ts.1 = 1 then ts.2 else "(" ++ toString ts.1 ++ ts.2 ++ ")"

/-- The attributes `LogTracer.open` sets; they exist only if `open` ran. -/
structure LogOpenState where
  max_level : Nat
  format_str : Fmt
  ts_unit : String
  dest : FileDest
  deriving DecidableEq

structure LogTracer where
  base : Tracer
  openState : Option LogOpenState

def LogTracer.init (cfg : LogConfig) (timescale : Nat × String) : LogTracer :=
  { base := Tracer.init ⟨cfg.enable, cfg.include_pat, cfg.exclude_pat⟩
    openState :=
      if cfg.enable then
        some { max_level := LogTracer.levels cfg.level
               format_str := cfg.format
               ts_unit := mkTsUnit timescale
               dest := destOf cfg.file }
      else none }

/-- `LogTracer.is_scope_enabled(scope, level=None)`.  With a non-None level
the comparison reads `self.max_level`, which raises `AttributeError` on a
tracer whose `open` never ran (i.e. a disabled tracer). -/
def LogTracer.is_scope_enabled (t : LogTracer) (scope : String)
    (level : Option LogLevel) : Except PyErr Bool :=
  match level with
  | none => .ok (t.base.is_scope_enabled scope)
  | some l =>
    match t.openState with
    | some o => .ok (decide (LogTracer.levels l ≤ o.max_level) && t.base.is_scope_enabled scope)
    | none => .error (.attrError "max_level")

/-- The callable `get_log_function` returns. -/
inductive LogFn where
  | noop
  | emit (fmt : Fmt) (dest : FileDest)
  deriving DecidableEq

/-- Calling that callable: the no-op writes nothing; the bound one makes one
`print` call per invocation, finishing the template with the current
simulated time and the message, extra positional arguments passed through. -/
def LogFn.call : LogFn → Int → String → List String → List Event
  | .noop, _, _, _ => []
  | .emit fmt dest, now, message, extra => [.wrote dest (renderFinal fmt now message) extra]

def LogTracer.get_log_function (t : LogTracer) (scope : String) (level : LogLevel) :
    Except PyErr LogFn :=
  match t.is_scope_enabled scope (some level) with
  | .error e => .error e
  | .ok false => .ok .noop
  | .ok true =>
    match t.openState with
    | some o => .ok (.emit (part_format o.format_str (levelName level) o.ts_unit scope) o.dest)
    | none => .error (.attrError "format_str")

/-- `LogTracer.activate_probe`: read the `log` hint entry (default level
PROBE, default value format `{value}`); decline when the scope+level is
disabled; else return the printing closure. -/
def LogTracer.activate_probe (t : LogTracer) (scope : String) (_target : Target)
    (hints : Hints) : Except PyErr (Option Callback) :=
  let log_hints := hints.log.getD {}
  let level := log_hints.level.getD .PROBE
  match t.is_scope_enabled scope (some level) with
  | .error e => .error e
  | .ok false => .ok none
  | .ok true =>
    match t.openState with
    | some o =>
      .ok (some (.logCb (part_format o.format_str (levelName level) o.ts_unit scope)
                        (log_hints.value_fmt.getD [.value]) o.dest))
    | none => .error (.attrError "format_str")

/-- `LogTracer.__exit__`: when an exception is propagating and the tracer is
enabled, one print of the ERROR-formatted line whose message is the last
formatted traceback line (`tb_lines[-1]`), with `'\n'` and all traceback
lines as extra arguments; then close. -/
def LogTracer.exitStep (t : LogTracer) (now : Int) (exc : Option (List String)) :
    List Event :=
  match exc with
  | some tb_lines =>
    (if t.base.enabled then
      match t.openState with
      | some o =>
        [Event.wrote o.dest
          (formatLine o.format_str "ERROR" o.ts_unit "Exception" now (tb_lines.getLastD ""))
          ("\n" :: tb_lines)]
      | none => []
    else []) ++ [.closed .log]
  | none => [.closed .log]

/-! ### Trace manager -/

structure TraceManager where
  log : LogTracer
  vcd : VCDTracer

/-- `TraceManager.__init__`: construct the log tracer, then the VCD tracer,
entering both on the exit stack in that order. -/
def TraceManager.init (logCfg : LogConfig) (vcdCfg : VcdConfig)
    (timescale : Nat × String) : TraceManager :=
  { log := LogTracer.init logCfg timescale
    vcd := VCDTracer.init vcdCfg }

/-- The `tracer.is_scope_enabled(scope)` call inside `auto_probe`: for the
log tracer the default `level=None` makes it the base scope filter. -/
def TraceManager.scopeEnabled (m : TraceManager) : TracerName → String → Bool
  | .log, scope => m.log.base.is_scope_enabled scope
  | .vcd, scope => m.vcd.base.is_scope_enabled scope

/-- The `tracer.activate_probe(scope, target, **hints)` call inside
`auto_probe`; the VCD tracer's returned closure is always truthy. -/
def TraceManager.activateProbe (m : TraceManager) :
    TracerName → String → Target → Hints → Except PyErr (Option Callback)
  | .log, scope, target, hints => m.log.activate_probe scope target hints
  | .vcd, scope, target, hints =>
      (m.vcd.activate_probe scope target hints).map fun act => some (.vcdCb act)

/-- One call of the external `probe.attach(scope, target, callbacks, **hints)`
collaborator, as data. -/
structure AttachCall where
  scope : String
  target : Target
  callbacks : List Callback
  hints : Hints
  deriving DecidableEq

/-- The `for tracer in self.tracers` loop of `auto_probe`: which tracers had
`activate_probe` invoked, and (unless an exception escaped) the truthy
callbacks collected in order. -/
def collectCallbacks (m : TraceManager) (scope : String) (target : Target)
    (hints : Hints) : List TracerName → List TracerName × Except PyErr (List Callback)
  | [] => ([], .ok [])
  | t :: rest =>
    if hints.hasKey t && m.scopeEnabled t scope then
      match m.activateProbe t scope target hints with
      | .error e => ([t], .error e)
      | .ok cbOpt =>
        let tail := collectCallbacks m scope target hints rest
        (t :: tail.1,
         match tail.2 with
         | .error e => .error e
         | .ok cbs => .ok (cbOpt.toList ++ cbs))
    else collectCallbacks m scope target hints rest

structure AutoProbeResult where
  invoked : List TracerName
  outcome : Except PyErr (List Callback × Option AttachCall)

/-- `TraceManager.auto_probe`: consult `[log, vcd]` in order; attach the
collected bundle only when it is non-empty. -/
def TraceManager.auto_probe (m : TraceManager) (scope : String) (target : Target)
    (hints : Hints) : AutoProbeResult :=
  let r := collectCallbacks m scope target hints [.log, .vcd]
  { invoked := r.1
    outcome := r.2.map fun cbs =>
      (cbs, if cbs.isEmpty then none else some ⟨scope, target, cbs, hints⟩) }

/-- `TraceManager.__exit__` delegates to the exit stack, which unwinds the
tracers in reverse entry order (VCD first, then log), passing the live
exception to each `__exit__`; neither returns a truthy value, so the
exception is never suppressed. -/
def TraceManager.exitStep (m : TraceManager) (now : Int) (exc : Option (List String)) :
    List Event × Bool :=
  (m.vcd.exitStep ++ m.log.exitStep now exc, false)

/-- The initial-value rule of `VCDTracer.activate_probe` lines 181-187,
extracted: the explicit `init` hint wins; otherwise a container's level, a
resource's user count (the sentinel `'z'` when its users list is empty), a
store's item count. -/
def codeInitRule (initHint : Option PyVal) (target : Target) : Option PyVal :=
  match initHint with
  | some v => some v
  | none =>
    match target with
    | .container lvl => some lvl
    | .resource users _ => some (if users ≠ 0 then .int (Int.ofNat users) else .str "z")
    | .store items => some (.int (Int.ofNat items))
    | .other => none

/-- The initial-value rule exactly as the specification words it (a counted
resource uses its user count, "or a sentinel unknown value if it has no
fixed capacity"), written from the spec for comparison against
`VCDTracer.activate_probe`. -/
def claimedInitC4 (initHint : Option PyVal) (target : Target) : Option PyVal :=
  match initHint with
  | some v => some v
  | none =>
    match target with
    | .container lvl => some lvl
    | .resource users capacity =>
        some (if capacity = none then .str "z" else .int (Int.ofNat users))
    | .store items => some (.int (Int.ofNat items))
    | .other => none

/-! ### Concrete states used by the witnesses -/

/-- An enabled VCD tracer configuration with the default pattern lists. -/
def vcdOn : VcdConfig := { enable := true }

/-- An enabled log tracer configuration with all defaults. -/
def logOn : LogConfig := { enable := true }

def logCfgC1 : LogConfig := { enable := true, level := .DEBUG }

def hintsC1 : Hints := { log := some {} }

def cbC1 : Callback :=
  .logCb (part_format default_format "PROBE" "s" "top.sig") [.value] .stderr

def rC4 : ProbeActivation :=
  { parentScope := "a", name := "b", meth := .int, size := none,
    init := some (.int 2), ident := none }

/-! ### Helper lemmas -/

/-- `re.match` semantics of the derivative matcher: the pattern matches,
anchored at position 0, iff it fully matches some prefix of the string. -/
theorem reMatch_iff (r : Regex) (s : String) :
    reMatch r s = true ↔ ∃ t : List Char, t <+: s.data ∧ fullmatch r t = true := by
  unfold reMatch
  rw [List.any_eq_true]
  constructor
  · rintro ⟨k, _, hf⟩
    exact ⟨s.data.take k, List.take_prefix _ _, hf⟩
  · rintro ⟨t, hpre, hf⟩
    refine ⟨t.length, ?_, ?_⟩
    · rw [List.mem_range]
      exact Nat.lt_succ_of_le hpre.length_le
    · rw [← List.prefix_iff_eq_take.mp hpre]
      exact hf

/-- The default include pattern `.*` matches every scope (it matches the
empty prefix). -/
theorem reMatch_matchAll (s : String) : reMatch matchAll s = true :=
  (reMatch_iff matchAll s).mpr ⟨[], List.nil_prefix, rfl⟩

theorem rsplit1_isSome (cs : List Char) : (rsplit1 cs).isSome = hasDotL cs := by
  induction cs with
  | nil => rfl
  | cons c rest ih =>
    simp only [rsplit1, hasDotL]
    cases hr : rsplit1 rest with
    | some p =>
      rw [hr] at ih
      simp only [Option.isSome_some] at ih
      simp [← ih]
    | none =>
      rw [hr] at ih
      simp only [Option.isSome_none] at ih
      by_cases hc : c == '.' <;> simp [hc, ← ih]

theorem rsplitStr_isSome (s : String) : (rsplitStr s).isSome = hasDot s := by
  rw [hasDot, ← rsplit1_isSome, rsplitStr]
  cases rsplit1 s.data <;> rfl

theorem rsplitStr_eq_none (s : String) (h : hasDot s = false) : rsplitStr s = none := by
  have hs := rsplitStr_isSome s
  rw [h] at hs
  exact Option.not_isSome_iff_eq_none.mp (by rw [hs]; exact Bool.false_ne_true)

/-- On an enabled log tracer (as `__init__` builds it), `activate_probe`
never raises. -/
theorem log_activate_ok (cfg : LogConfig) (ts : Nat × String) (h : cfg.enable = true)
    (scope : String) (target : Target) (hints : Hints) :
    ∃ cbOpt, (LogTracer.init cfg ts).activate_probe scope target hints = .ok cbOpt := by
  have ho : (LogTracer.init cfg ts).openState =
      some { max_level := LogTracer.levels cfg.level, format_str := cfg.format,
             ts_unit := mkTsUnit ts, dest := destOf cfg.file } := by
    simp [LogTracer.init, h]
  cases hb : (decide (LogTracer.levels ((hints.log.getD {}).level.getD .PROBE)
        ≤ LogTracer.levels cfg.level) && (LogTracer.init cfg ts).base.is_scope_enabled scope) with
  | false =>
    exact ⟨none, by simp [LogTracer.activate_probe, LogTracer.is_scope_enabled, ho, hb]⟩
  | true =>
    refine ⟨some (.logCb
        (part_format cfg.format (levelName ((hints.log.getD {}).level.getD .PROBE))
          (mkTsUnit ts) scope)
        ((hints.log.getD {}).value_fmt.getD [.value]) (destOf cfg.file)), ?_⟩
    simp [LogTracer.activate_probe, LogTracer.is_scope_enabled, ho, hb]

/-- A successful signal registration needs a dot in the scope: every success
path of `VCDTracer.activate_probe` goes through the two-piece rsplit. -/
theorem activate_ok_hasDot (t : VCDTracer) (sc : String) (target : Target)
    (hints : Hints) (r : ProbeActivation)
    (hok : t.activate_probe sc target hints = .ok r) : hasDot sc = true := by
  cases hcase : hasDot sc with
  | true => rfl
  | false =>
    exfalso
    have hnone : rsplitStr sc = none := rsplitStr_eq_none sc hcase
    simp only [VCDTracer.activate_probe] at hok
    split at hok
    · exact Except.noConfusion hok
    · split at hok
      · exact Except.noConfusion hok
      · split at hok
        · exact Except.noConfusion hok
        · rw [hnone] at hok
          exact Except.noConfusion hok

/-! ### Claim theorems -/

/-- Claim C2: for every scope `S` and every enabled tracer, `is_scope_enabled S`
is true iff some include pattern matches a prefix of `S` (anchored at position
0, not required to consume the whole string) and no exclude pattern matches a
prefix of `S`; with the default include list (the match-everything pattern)
and default exclude list (empty) every scope is enabled, and e.g. the pattern
`sim.queue` matches the scope `sim.queue.depth`. -/
theorem is_scope_enabled_prefix_semantics (cfg : TracerConfig) (h : cfg.enable = true)
    (S : String) :
    ((Tracer.init cfg).is_scope_enabled S = true ↔
       ((∃ p ∈ cfg.include_pat, ∃ tl, tl <+: S.data ∧ fullmatch p tl = true) ∧
        ¬ ∃ p ∈ cfg.exclude_pat, ∃ tl, tl <+: S.data ∧ fullmatch p tl = true))
  ∧ (Tracer.init { enable := true }).is_scope_enabled S = true
  ∧ reMatch (Regex.ofChars "sim.queue".data) "sim.queue.depth" = true := by
  refine ⟨?_, ?_, by decide⟩
  · have hval : (Tracer.init cfg).is_scope_enabled S
        = ((cfg.include_pat.any fun r => reMatch r S)
            && !(cfg.exclude_pat.any fun r => reMatch r S)) := by
      simp [Tracer.is_scope_enabled, Tracer.init, h]
    rw [hval]
    simp only [Bool.and_eq_true, Bool.not_eq_true', List.any_eq_true, List.any_eq_false,
      reMatch_iff, not_exists]
    aesop
  · have hval : (Tracer.init { enable := true }).is_scope_enabled S
        = (reMatch matchAll S || false) := by
      simp [Tracer.is_scope_enabled, Tracer.init]
    rw [hval, reMatch_matchAll]
    rfl

/-- Witness for C2 at the default configuration and scope `sim.queue.depth`. -/
theorem is_scope_enabled_prefix_semantics_w :
    (Tracer.init { enable := true }).is_scope_enabled "sim.queue.depth" = true :=
  (is_scope_enabled_prefix_semantics { enable := true } rfl "sim.queue.depth").2.1

/-- Claim C6: on an enabled log tracer whose scope filter passes, the
decision to render a message at level `M` under configured maximum level `L`
is exactly `rank M ≤ rank L`, where the ranks strictly order
ERROR(1) < WARNING(2) < INFO(3) < PROBE(4) < DEBUG(5), ERROR most severe. -/
theorem log_level_filtering (cfg : LogConfig) (h : cfg.enable = true) (ts : Nat × String)
    (scope : String) (M : LogLevel)
    (hs : (LogTracer.init cfg ts).base.is_scope_enabled scope = true) :
    (LogTracer.init cfg ts).is_scope_enabled scope (some M)
        = .ok (decide (LogTracer.levels M ≤ LogTracer.levels cfg.level))
  ∧ LogTracer.levels .ERROR = 1 ∧ LogTracer.levels .WARNING = 2
  ∧ LogTracer.levels .INFO = 3 ∧ LogTracer.levels .PROBE = 4
  ∧ LogTracer.levels .DEBUG = 5 := by
  refine ⟨?_, rfl, rfl, rfl, rfl, rfl⟩
  have ho : (LogTracer.init cfg ts).openState =
      some { max_level := LogTracer.levels cfg.level, format_str := cfg.format,
             ts_unit := mkTsUnit ts, dest := destOf cfg.file } := by
    simp [LogTracer.init, h]
  rw [LogTracer.is_scope_enabled, ho, hs]
  simp

/-- Witness for C6: enabled tracer with maximum level INFO and an ERROR
message at an in-filter scope. -/
theorem log_level_filtering_w :
    (LogTracer.init logOn (1, "s")).is_scope_enabled "a.b" (some .ERROR) = .ok true := by
  have h := (log_level_filtering logOn rfl (1, "s") "a.b" .ERROR (by decide)).1
  rw [h]
  rfl

/-- Counterexample to claim C7: on a tracer constructed with
`enable = false`, `get_log_function` does not return a no-op callable — it
raises `AttributeError`, because `open` never ran and `max_level` is unset. -/
theorem get_log_function_disabled_cex :
    (LogTracer.init {} (1, "s")).get_log_function "a.b" .INFO
      = .error (.attrError "max_level") := rfl

/-- Claim C7 (amended): on an enabled log tracer, `get_log_function` returns
a callable; when `is_scope_enabled (scope, level)` is false the callable is a
no-op producing no output, and otherwise each call writes exactly one line
combining the bound level, time unit and scope with the current simulated
time and the message.  (On a globally disabled tracer `get_log_function`
instead raises `AttributeError`, see the counterexample.) -/
theorem get_log_function_behavior (cfg : LogConfig) (h : cfg.enable = true)
    (ts : Nat × String) (scope : String) (level : LogLevel) :
    ((LogTracer.init cfg ts).is_scope_enabled scope (some level) = .ok false →
       (LogTracer.init cfg ts).get_log_function scope level = .ok .noop
       ∧ ∀ now message extra, LogFn.call .noop now message extra = [])
  ∧ ((LogTracer.init cfg ts).is_scope_enabled scope (some level) = .ok true →
       (LogTracer.init cfg ts).get_log_function scope level
         = .ok (.emit (part_format cfg.format (levelName level) (mkTsUnit ts) scope)
                      (destOf cfg.file))
       ∧ ∀ now message extra,
           LogFn.call (.emit (part_format cfg.format (levelName level) (mkTsUnit ts) scope)
                             (destOf cfg.file)) now message extra
             = [.wrote (destOf cfg.file)
                  (renderFinal (part_format cfg.format (levelName level) (mkTsUnit ts) scope)
                     now message)
                  extra]) := by
  have ho : (LogTracer.init cfg ts).openState =
      some { max_level := LogTracer.levels cfg.level, format_str := cfg.format,
             ts_unit := mkTsUnit ts, dest := destOf cfg.file } := by
    simp [LogTracer.init, h]
  constructor
  · intro hf
    refine ⟨?_, fun _ _ _ => rfl⟩
    rw [LogTracer.get_log_function, hf]
  · intro ht
    refine ⟨?_, fun _ _ _ => rfl⟩
    rw [LogTracer.get_log_function, ht, ho]

/-- Witness for C7 (amended): a DEBUG message under maximum level INFO is
disabled, and the returned callable is the no-op. -/
theorem get_log_function_behavior_w :
    (LogTracer.init logOn (1, "s")).get_log_function "a.b" .DEBUG = .ok .noop :=
  ((get_log_function_behavior logOn rfl (1, "s") "a.b" .DEBUG).1 rfl).1

/-- Claim C8: when an exception propagates through the tracing scope's exit
with the log tracer enabled, the unwinding closes the VCD tracer, then
writes exactly one ERROR-formatted line (whose message is the last formatted
traceback line) to the log destination before the log tracer's own close,
and the exception is not suppressed. -/
theorem exit_error_line (logCfg : LogConfig) (vcdCfg : VcdConfig) (ts : Nat × String)
    (now : Int) (tb : List String) (h : logCfg.enable = true) :
    (TraceManager.init logCfg vcdCfg ts).exitStep now (some tb)
      = ([.closed .vcd,
          .wrote (destOf logCfg.file)
            (formatLine logCfg.format "ERROR" (mkTsUnit ts) "Exception" now (tb.getLastD ""))
            ("\n" :: tb),
          .closed .log], false) := by
  simp [TraceManager.exitStep, TraceManager.init, VCDTracer.exitStep, LogTracer.exitStep,
        LogTracer.init, Tracer.init, h]

/-- Witness for C8 at a concrete enabled configuration and traceback. -/
theorem exit_error_line_w :
    (TraceManager.init logOn {} (1, "s")).exitStep 7 (some ["boom"])
      = ([.closed .vcd,
          .wrote .stderr (formatLine default_format "ERROR" "s" "Exception" 7 "boom")
            ("\n" :: ["boom"]),
          .closed .log], false) :=
  exit_error_line logOn {} (1, "s") 7 ["boom"] rfl

/-- Claim C9: a tracer constructed with `enable = false` opens no resource
and compiles no patterns, its `is_scope_enabled` is false for every scope,
and `auto_probe` never invokes its `activate_probe` (the disabled tracer is
never in the invoked list). -/
theorem disabled_tracer_inert (cfg : TracerConfig) (h : cfg.enable = false)
    (logCfg : LogConfig) (vcdCfg : VcdConfig) (ts : Nat × String)
    (scope : String) (target : Target) (hints : Hints) :
    (Tracer.init cfg).opened = false
  ∧ (Tracer.init cfg).include_re = none
  ∧ (Tracer.init cfg).exclude_re = none
  ∧ (∀ sc, (Tracer.init cfg).is_scope_enabled sc = false)
  ∧ (logCfg.enable = false →
       (LogTracer.init logCfg ts).openState = none
       ∧ TracerName.log ∉
           ((TraceManager.init logCfg vcdCfg ts).auto_probe scope target hints).invoked)
  ∧ (vcdCfg.enable = false →
       TracerName.vcd ∉
           ((TraceManager.init logCfg vcdCfg ts).auto_probe scope target hints).invoked) := by
  refine ⟨by simp [Tracer.init, h], by simp [Tracer.init, h], by simp [Tracer.init, h],
    fun sc => by simp [Tracer.is_scope_enabled, Tracer.init, h], ?_, ?_⟩
  · intro hlog
    refine ⟨by simp [LogTracer.init, hlog], ?_⟩
    have hc : (hints.hasKey .log
        && (TraceManager.init logCfg vcdCfg ts).scopeEnabled .log scope) = false := by
      simp [TraceManager.scopeEnabled, TraceManager.init, LogTracer.init, Tracer.init,
        Tracer.is_scope_enabled, hlog]
    simp only [TraceManager.auto_probe, collectCallbacks, hc]
    by_cases c2 : (hints.hasKey .vcd
        && (TraceManager.init logCfg vcdCfg ts).scopeEnabled .vcd scope) = true
    · cases hv : (TraceManager.init logCfg vcdCfg ts).activateProbe .vcd scope target hints <;>
        simp [collectCallbacks, c2, hv]
    · simp [collectCallbacks, c2]
  · intro hvcd
    have hc : (hints.hasKey .vcd
        && (TraceManager.init logCfg vcdCfg ts).scopeEnabled .vcd scope) = false := by
      simp [TraceManager.scopeEnabled, TraceManager.init, VCDTracer.init, Tracer.init,
        Tracer.is_scope_enabled, hvcd]
    by_cases c1 : (hints.hasKey .log
        && (TraceManager.init logCfg vcdCfg ts).scopeEnabled .log scope) = true
    · cases hl : (TraceManager.init logCfg vcdCfg ts).activateProbe .log scope target hints <;>
        simp [TraceManager.auto_probe, collectCallbacks, c1, hc, hl]
    · simp [TraceManager.auto_probe, collectCallbacks, c1, hc]

/-- Witness for C9 at the default (disabled) configuration. -/
theorem disabled_tracer_inert_w :
    (Tracer.init {}).opened = false :=
  (disabled_tracer_inert {} rfl {} {} (1, "s") "a.b" .other {}).1

/-- Claim C10: for a scope string without a dot, the signal tracer's
`activate_probe` cannot succeed; with a recognized target it fails at the
two-piece rsplit with the unpacking `ValueError`, before any registration;
and any successful registration implies the scope contained a dot. -/
theorem scope_needs_dot (cfg : VcdConfig) (h : cfg.enable = true)
    (scope : String) (hd : hasDot scope = false) :
    (∀ target hints r, (VCDTracer.init cfg).activate_probe scope target hints ≠ .ok r)
  ∧ (∀ v : PyVal, (VCDTracer.init cfg).activate_probe scope (.container v) {}
       = .error (.valueError "not enough values to unpack (expected 2, got 1)"))
  ∧ (∀ (t : VCDTracer) (sc : String) (target : Target) (hints : Hints)
        (r : ProbeActivation),
       t.activate_probe sc target hints = .ok r → hasDot sc = true) := by
  refine ⟨?_, ?_, fun t sc target hints r hok => activate_ok_hasDot t sc target hints r hok⟩
  · intro target hints r hok
    have hsc := activate_ok_hasDot _ _ _ _ _ hok
    rw [hd] at hsc
    exact Bool.false_ne_true hsc
  · intro v
    have hnone : rsplitStr scope = none := rsplitStr_eq_none scope hd
    have hen : (VCDTracer.init cfg).base.enabled = true := h
    cases v <;> simp [VCDTracer.activate_probe, hen, hnone, PyVal.isFloat]

/-- Claim C1: `auto_probe` invokes a tracer's `activate_probe` exactly when
the tracer's name is a key of the hints and its `is_scope_enabled(scope)` is
true; and on a call that completes without an exception the collected
callbacks are passed to the external attach exactly when at least one was
collected (with payload `(scope, target, callbacks, hints)`), and no
attachment occurs when none was collected. -/
theorem auto_probe_dispatch (logCfg : LogConfig) (vcdCfg : VcdConfig) (ts : Nat × String)
    (scope : String) (target : Target) (hints : Hints) :
    ((TraceManager.init logCfg vcdCfg ts).auto_probe scope target hints).invoked
      = [TracerName.log, TracerName.vcd].filter
          (fun t => hints.hasKey t
            && (TraceManager.init logCfg vcdCfg ts).scopeEnabled t scope)
  ∧ ∀ cbs att,
      ((TraceManager.init logCfg vcdCfg ts).auto_probe scope target hints).outcome
          = .ok (cbs, att) →
      att = if cbs.isEmpty then none else some ⟨scope, target, cbs, hints⟩ := by
  constructor
  · by_cases c1 : (hints.hasKey .log
        && (TraceManager.init logCfg vcdCfg ts).scopeEnabled .log scope) = true
    · have henable : logCfg.enable = true := by
        have h1 := c1
        rw [Bool.and_eq_true] at h1
        have h2 := h1.2
        simp only [TraceManager.scopeEnabled, Tracer.is_scope_enabled,
          Bool.and_eq_true] at h2
        exact h2.1.1
      obtain ⟨cbOpt, hcb⟩ := log_activate_ok logCfg ts henable scope target hints
      have hcb2 : (TraceManager.init logCfg vcdCfg ts).activateProbe .log scope target hints
          = .ok cbOpt := hcb
      by_cases c2 : (hints.hasKey .vcd
          && (TraceManager.init logCfg vcdCfg ts).scopeEnabled .vcd scope) = true
      · cases hv : (TraceManager.init logCfg vcdCfg ts).activateProbe .vcd scope target hints <;>
          simp [TraceManager.auto_probe, collectCallbacks, c1, c2, hcb2, hv, List.filter]
      · simp [TraceManager.auto_probe, collectCallbacks, c1, c2, hcb2, List.filter]
    · by_cases c2 : (hints.hasKey .vcd
          && (TraceManager.init logCfg vcdCfg ts).scopeEnabled .vcd scope) = true
      · cases hv : (TraceManager.init logCfg vcdCfg ts).activateProbe .vcd scope target hints <;>
          simp [TraceManager.auto_probe, collectCallbacks, c1, c2, hv, List.filter]
      · simp [TraceManager.auto_probe, collectCallbacks, c1, c2, List.filter]
  · intro cbs att hout
    simp only [TraceManager.auto_probe] at hout
    cases hr : (collectCallbacks (TraceManager.init logCfg vcdCfg ts) scope target hints
        [.log, .vcd]).2 with
    | error e =>
      rw [hr] at hout
      exact Except.noConfusion hout
    | ok cbs2 =>
      rw [hr] at hout
      simp only [Except.map] at hout
      injection hout with hpair
      rw [Prod.mk.injEq] at hpair
      obtain ⟨hcbs, hatt⟩ := hpair
      subst hcbs
      exact hatt.symm

/-- Witness for C1: log tracer enabled at maximum level DEBUG, hints with a
`log` entry only; the log callback is collected and attached. -/
theorem auto_probe_dispatch_w :
    ((TraceManager.init logCfgC1 {} (1, "s")).auto_probe "top.sig" .other hintsC1).invoked
        = [TracerName.log]
  ∧ (some ⟨"top.sig", Target.other, [cbC1], hintsC1⟩ : Option AttachCall)
        = if ([cbC1] : List Callback).isEmpty then none
          else some ⟨"top.sig", Target.other, [cbC1], hintsC1⟩ := by
  constructor
  · exact (auto_probe_dispatch logCfgC1 {} (1, "s") "top.sig" .other hintsC1).1.trans (by rfl)
  · exact (auto_probe_dispatch logCfgC1 {} (1, "s") "top.sig" .other hintsC1).2
      [cbC1] (some ⟨"top.sig", Target.other, [cbC1], hintsC1⟩) (by rfl)

/-- Claim C3: resolution of the signal kind in the signal tracer's
`activate_probe` follows the priority order: an explicit `var_type` hint
first (used for any target shape); else a container infers `real` when its
level is a float and `integer` otherwise; a resource or store infers
`integer`; any other target raises a `ValueError` naming the offending
scope. -/
theorem vcd_var_type_resolution (cfg : VcdConfig) (h : cfg.enable = true)
    (scope : String) (hd : hasDot scope = true) (hints : Hints)
    (hv : (hints.vcd.getD {}).var_type = none) :
    (∀ v : PyVal, ∃ r,
        (VCDTracer.init cfg).activate_probe scope (.container v) hints = .ok r
        ∧ r.meth = (if v.isFloat then .real else .int))
  ∧ (∀ users cap, ∃ r,
        (VCDTracer.init cfg).activate_probe scope (.resource users cap) hints = .ok r
        ∧ r.meth = .int)
  ∧ (∀ items, ∃ r,
        (VCDTracer.init cfg).activate_probe scope (.store items) hints = .ok r
        ∧ r.meth = .int)
  ∧ (VCDTracer.init cfg).activate_probe scope .other hints
      = .error (.valueError ("Could not infer VCD var_type for " ++ scope))
  ∧ (∀ target2 : Target, ∃ r,
        (VCDTracer.init cfg).activate_probe scope target2
            { vcd := some { var_type := some "event" } } = .ok r
        ∧ r.meth = .event)
  ∧ (∀ n : Int, ∃ r,
        (VCDTracer.init cfg).activate_probe scope (.container (.int n))
            { vcd := some { var_type := some "real" } } = .ok r
        ∧ r.meth = .real) := by
  have hen : (VCDTracer.init cfg).base.enabled = true := h
  obtain ⟨pn, hpn⟩ := Option.isSome_iff_exists.mp
    (show (rsplitStr scope).isSome = true by rw [rsplitStr_isSome]; exact hd)
  refine ⟨?_, ?_, ?_, ?_, ?_, ?_⟩
  · intro v
    refine ⟨⟨pn.1, pn.2, if v.isFloat then .real else .int,
        (hints.vcd.getD {}).size,
        (match (hints.vcd.getD {}).init with
         | some w => some w
         | none => some v),
        (hints.vcd.getD {}).ident⟩, ?_, rfl⟩
    cases v <;> simp [VCDTracer.activate_probe, hen, hv, hpn, PyVal.isFloat]
  · intro users cap
    refine ⟨⟨pn.1, pn.2, .int,
        (hints.vcd.getD {}).size,
        (match (hints.vcd.getD {}).init with
         | some w => some w
         | none => some (if users ≠ 0 then .int (Int.ofNat users) else .str "z")),
        (hints.vcd.getD {}).ident⟩, ?_, rfl⟩
    simp [VCDTracer.activate_probe, hen, hv, hpn]
  · intro items
    refine ⟨⟨pn.1, pn.2, .int,
        (hints.vcd.getD {}).size,
        (match (hints.vcd.getD {}).init with
         | some w => some w
         | none => some (.int (Int.ofNat items))),
        (hints.vcd.getD {}).ident⟩, ?_, rfl⟩
    simp [VCDTracer.activate_probe, hen, hv, hpn]
  · simp [VCDTracer.activate_probe, hen, hv]
  · intro target2
    refine ⟨⟨pn.1, pn.2, .event, none,
        (match target2 with
         | .container lvl => some lvl
         | .resource users _ => some (if users ≠ 0 then .int (Int.ofNat users) else .str "z")
         | .store items => some (.int (Int.ofNat items))
         | .other => none),
        none⟩, ?_, rfl⟩
    cases target2 <;> simp [VCDTracer.activate_probe, hen, hpn]
  · intro n
    refine ⟨⟨pn.1, pn.2, .real, none, some (.int n), none⟩, ?_, rfl⟩
    simp [VCDTracer.activate_probe, hen, hpn]

/-- Witness for C3: a container holding the integer 3, no hints, infers an
integer signal. -/
theorem vcd_var_type_resolution_w :
    ((VCDTracer.init vcdOn).activate_probe "top.lvl" (.container (.int 3)) {}).map
        (fun r => r.meth) = .ok .int := by
  obtain ⟨r, hr, hm⟩ :=
    (vcd_var_type_resolution vcdOn rfl "top.lvl" (by decide) {} rfl).1 (.int 3)
  rw [hr]
  simp only [Except.map]
  rw [hm]
  simp [PyVal.isFloat]

/-- Counterexample to claim C4 as stated: a resource with zero users but a
fixed capacity.  The code registers the sentinel `'z'` (it tests the users
list for emptiness), while the claim's rule — sentinel only when the
resource has no fixed capacity — would register the user count 0. -/
theorem vcd_init_capacity_cex :
    ((VCDTracer.init vcdOn).activate_probe "top.q" (.resource 0 (some 1)) {}).map
        (fun r => r.init) = .ok (some (.str "z"))
  ∧ claimedInitC4 none (.resource 0 (some 1)) = some (.int 0)
  ∧ some (PyVal.str "z") ≠ some (PyVal.int 0) := by
  refine ⟨rfl, rfl, by decide⟩

/-- Claim C4 (amended): the registered signal's initial value is the
explicit `init` hint if present; otherwise a container's current level, a
resource's current user count — or the sentinel unknown value `'z'` when it
currently has no users — and a store's current item count. -/
theorem vcd_init_resolution (t : VCDTracer) (scope : String) (target : Target)
    (hints : Hints) (r : ProbeActivation)
    (hok : t.activate_probe scope target hints = .ok r) :
    r.init = codeInitRule (hints.vcd.getD {}).init target := by
  simp only [VCDTracer.activate_probe] at hok
  split at hok
  · exact Except.noConfusion hok
  · split at hok
    · exact Except.noConfusion hok
    · split at hok
      · exact Except.noConfusion hok
      · split at hok
        · exact Except.noConfusion hok
        · injection hok with hr
          rw [← hr]
          rfl

/-- Witness for C4 (amended): a resource with two users and no `init` hint
gets initial value 2. -/
theorem vcd_init_resolution_w :
    rC4.init = some (PyVal.int 2) := by
  have h := vcd_init_resolution (VCDTracer.init vcdOn) "a.b" (.resource 2 (some 1)) {} rC4 rfl
  simpa using h

/-- Claim C5 describes the intended behavior, but the fallback arm of the
registration dispatch reads the nonexistent attribute `self.vcd_register_var`
(instead of `self.vcd.register_var`), so an explicit `var_type` outside
{integer, real, event} raises `AttributeError` and nothing is registered:
evaluation of the code at such a hint. -/
theorem vcd_other_var_type_bug :
    (VCDTracer.init vcdOn).activate_probe "top.sig" (.container (.int 0))
        { vcd := some { var_type := some "wire" } }
      = .error (.attrError "vcd_register_var") := rfl

/-- Witness for C10 at the dotless scope `nodot`. -/
theorem scope_needs_dot_w :
    (VCDTracer.init vcdOn).activate_probe "nodot" (.container (.int 1)) {}
      = .error (.valueError "not enough values to unpack (expected 2, got 1)") :=
  (scope_needs_dot vcdOn rfl "nodot" (by decide)).2.1 (.int 1)

end Desmod
